import Mathlib

/-!
Verification of the webhook git pull server (src/server.js).

The development shallowly embeds the decision core of the server:
signature validation, payload interpretation, branch extraction, the
clone-vs-pull decision and its failure and cleanup semantics.  External
capabilities (the HMAC computation, JSON parsing, the git commands and
the filesystem) are modelled explicitly: the filesystem state of the one
repository directory a request touches is an `Option (List String)`
(absent, or present with its entry names), git command outcomes are
supplied by a `GitEnv` oracle, and every filesystem or command effect is
recorded in a trace.
-/

/-- Raw bytes, as used for request bodies, secrets and digests. -/
abbrev Bytes := List Nat

/-- Lowercase hexadecimal digit character for a value below 16. -/
def hexDigitChar (n : Nat) : Char :=
  if n < 10 then Char.ofNat (48 + n) else Char.ofNat (87 + n)

/-- Lowercase hex encoding of a byte list, as the Node hex digest encoding
produces it. -/
def bytesToHex (bs : Bytes) : String :=
  String.mk (bs.foldr (fun b acc => hexDigitChar (b / 16 % 16) :: hexDigitChar (b % 16) :: acc) [])

/-- Model of crypto.timingSafeEqual applied to the UTF-8 bytes of two
strings: it throws (`none`) when the byte lengths differ, otherwise it
reports whether the byte sequences are equal (UTF-8 encoding is injective,
so byte equality is string equality). -/
def timingSafeEqual (a b : String) : Option Bool :=
  if a.utf8ByteSize = b.utf8ByteSize then some (a == b) else none

/-- validateGitHubSignature from src/server.js lines 61-77.  `hmac` is the
external crypto capability computing the HMAC-SHA256 bytes of the payload
under the secret.  A missing header or the empty string is falsy and
rejected up front; a length mismatch makes timingSafeEqual throw, which
the catch turns into `false`. -/
def validateGitHubSignature (hmac : Bytes → Bytes → Bytes) (secret payload : Bytes)
    (signature : Option String) : Bool :=
  match signature with
  | none => false
  | some s =>
    if s = "" then false
    else
      match timingSafeEqual s ("sha256=" ++ bytesToHex (hmac secret payload)) with
      | some b => b
      | none => false

/-- Line terminator characters, which the dot of a JavaScript regular
expression without the s flag does not match. -/
def isLineTerminator (c : Char) : Bool :=
  c == '\n' || c == '\r' || c == Char.ofNat 8232 || c == Char.ofNat 8233

/-- extractBranchFromRef from src/server.js lines 285-292.  The regular
expression is matched against the whole string: the literal text
refs/heads/ followed by one or more characters, none of which may be a
line terminator, up to the end of the input. -/
def extractBranchFromRef (ref : Option String) : Option String :=
  match ref with
  | none => none
  | some s =>
    if s = "" then none
    else
      let pre := "refs/heads/".data
      if pre.isPrefixOf s.data then
        let rest := s.data.drop pre.length
        if rest ≠ [] ∧ rest.all (fun c => !(isLineTerminator c)) then some (String.mk rest)
        else none
      else none

/-- JavaScript string truthiness fallback: `a || b` for strings, where the
empty string is falsy. -/
def jsOr (a b : String) : String :=
  if a = "" then b else a

/-- JavaScript `a || b` where `a` is a possibly absent string field. -/
def jsGetOr (a : Option String) (b : String) : String :=
  match a with
  | none => b
  | some s => if s = "" then b else s

/-- JavaScript truthiness filter on an optional string field: an absent or
empty value is dropped, as in the conditional field assignments of the
response builders. -/
def jsStr? (a : Option String) : Option String :=
  match a with
  | none => none
  | some s => if s = "" then none else some s

/-- JavaScript truthiness of a possibly absent string. -/
def truthy (a : Option String) : Bool :=
  match a with
  | none => false
  | some s => s != ""

/-- Whitespace in the sense of the JavaScript trim method: the WhiteSpace
and LineTerminator productions of the language specification. -/
def isJsWhitespace (c : Char) : Bool :=
  c == ' ' || c == '\t' || c == '\n' || c == '\r' ||
  c == Char.ofNat 11 || c == Char.ofNat 12 || c == Char.ofNat 160 ||
  c == Char.ofNat 5760 || (8192 ≤ c.toNat && c.toNat ≤ 8202) ||
  c == Char.ofNat 8232 || c == Char.ofNat 8233 || c == Char.ofNat 8239 ||
  c == Char.ofNat 8287 || c == Char.ofNat 12288 || c == Char.ofNat 65279

/-- Model of the JavaScript String trim method: strip whitespace and line
terminators from both ends. -/
def jsTrim (s : String) : String :=
  String.mk (((s.data.dropWhile isJsWhitespace).reverse.dropWhile isJsWhitespace).reverse)

/-- Process configuration, as loaded once at startup (webhook-config.json
fields used by the request handler). -/
structure Config where
  githubWebhookSecret : Bytes
  defaultBranch : String
  autoClone : Bool
  deriving DecidableEq

/-- The repository object of a webhook payload; each field may be absent. -/
structure Repository where
  name : Option String
  ssh_url : Option String
  default_branch : Option String
  deriving DecidableEq

/-- The parts of a parsed webhook payload the handler reads. -/
structure Payload where
  repository : Option Repository
  ref : Option String
  deriving DecidableEq

/-- Result of extractRepositoryInfo (src/server.js lines 277-283). -/
structure RepoInfo where
  name : Option String
  sshUrl : Option String
  defaultBranch : String
  deriving DecidableEq

/-- extractRepositoryInfo from src/server.js lines 277-283: optional
chaining on the repository object, with the configured fallback for the
default branch. -/
def extractRepositoryInfo (cfg : Config) (payload : Payload) : RepoInfo :=
  { name := payload.repository.bind Repository.name
    sshUrl := payload.repository.bind Repository.ssh_url
    defaultBranch := jsGetOr (payload.repository.bind Repository.default_branch) cfg.defaultBranch }

/-- State of the one repository directory a request touches: absent, or
present with the names of its entries. -/
abbrev DirState := Option (List String)

/-- isDirectoryEmpty from src/server.js lines 114-117, on the entry list
of an existing directory: no entries, or only dot entries other than an
actual .git entry. -/
def isDirectoryEmpty (files : List String) : Bool :=
  files.isEmpty || files.all (fun file => file.startsWith "." && file != ".git")

/-- Whether the directory exists (fs.existsSync on the repository path). -/
def dirExists (d : DirState) : Bool :=
  d.isSome

/-- Whether a .git entry exists inside the directory (fs.existsSync on the
.git path below the repository path). -/
def hasGitEntry (d : DirState) : Bool :=
  match d with
  | none => false
  | some es => es.contains ".git"

/-- Whether the directory exists and is non-empty under the isDirectoryEmpty
predicate. -/
def dirNonEmpty (d : DirState) : Bool :=
  match d with
  | none => false
  | some es => !(isDirectoryEmpty es)

/-- Stdout and stderr of a successful external command. -/
structure ExecResult where
  stdout : String
  stderr : String
  deriving DecidableEq

/-- Error message and stderr of a failed external command, as rejected by
execGitCommand (src/server.js lines 83-93). -/
structure ExecError where
  errorMsg : String
  stderr : String
  deriving DecidableEq

instance {α β : Type} [DecidableEq α] [DecidableEq β] : DecidableEq (Except α β)
  | Except.ok x, Except.ok y =>
    if h : x = y then isTrue (by rw [h]) else isFalse (by intro hh; cases hh; exact h rfl)
  | Except.ok _, Except.error _ => isFalse (by intro h; cases h)
  | Except.error _, Except.ok _ => isFalse (by intro h; cases h)
  | Except.error x, Except.error y =>
    if h : x = y then isTrue (by rw [h]) else isFalse (by intro hh; cases hh; exact h rfl)

/-- Oracle for the external world of one request: the outcome of each git
command the request may run, the directory entries the clone attempt
leaves behind (success or failure), the entries after a successful pull,
and whether the filesystem operations inside cleanupDirectory throw. -/
structure GitEnv where
  clone : Except ExecError ExecResult
  entriesAfterClone : List String
  branch : Except ExecError ExecResult
  pull : Except ExecError ExecResult
  entriesAfterPull : List String
  rmThrows : Bool
  deriving DecidableEq

/-- Filesystem and command effects a request performs, in order. -/
inductive Effect where
  | fsExistsRepo
  | fsExistsGit
  | fsReaddir
  | fsMkdir
  | fsRm
  | execClone
  | execPull
  | execBranch
  deriving DecidableEq

/-- cleanupDirectory from src/server.js lines 126-134: inside a try-catch,
remove the directory when it exists and isDirectoryEmpty holds; any error
is swallowed.  Returns the resulting directory state (unchanged when the
removal throws) and the effects attempted. -/
def cleanupDirectory (rmThrows : Bool) (d : DirState) : DirState × List Effect :=
  match d with
  | none => (none, [Effect.fsExistsRepo])
  | some es =>
    if isDirectoryEmpty es then
      if rmThrows then (some es, [Effect.fsExistsRepo, Effect.fsReaddir, Effect.fsRm])
      else (none, [Effect.fsExistsRepo, Effect.fsReaddir, Effect.fsRm])
    else (some es, [Effect.fsExistsRepo, Effect.fsReaddir])

/-- Success response of buildSuccessResponse (src/server.js lines 230-244). -/
structure SuccessResponse where
  success : Bool
  repository : String
  action : String
  output : String
  message : String
  branch : Option String
  deriving DecidableEq

/-- buildSuccessResponse from src/server.js lines 230-244; a falsy branch
argument leaves the branch field unset. -/
def buildSuccessResponse (repoName action output : String) (branch : Option String) :
    SuccessResponse :=
  { success := true
    repository := repoName
    action := action
    output := output
    message := if action = "cloned" then "Repository cloned successfully"
      else "Repository updated successfully"
    branch := jsStr? branch }

/-- Error response object of buildErrorResponse (src/server.js lines
246-263); falsy stderr or status leave the fields unset. -/
structure ErrorResponse where
  success : Bool
  repository : String
  action : String
  error : String
  stderr : Option String
  status : Option Nat
  deriving DecidableEq

/-- buildErrorResponse from src/server.js lines 246-263.  The error
argument is always a plain string at the call sites, so the member access
of message on it yields undefined and the fallback chain reduces to the
string itself or the generic text. -/
def buildErrorResponse (repoName action error : String) (stderr : Option String)
    (status : Option Nat) : ErrorResponse :=
  { success := false
    repository := repoName
    action := action
    error := jsOr error ("Git " ++ action ++ " failed")
    stderr := jsStr? stderr
    status := match status with
      | none => none
      | some k => if k = 0 then none else some k }

/-- Errors thrown inside the request flow and caught at the end of
handleWebhookRequest; every thrown object in the source carries a status,
an error text and possibly a message. -/
structure ThrownError where
  status : Nat
  error : String
  message : Option String
  deriving DecidableEq

/-- JSON response bodies the handler can produce, one constructor per
res.json call site in src/server.js, carrying the data interpolated
there. -/
inductive RespBody where
  | unauthorized
  | payloadError (msg : String)
  | eventIgnored (event : Option String)
  | invalidRef (ref : Option String)
  | pushIgnoredNotCloned (pushBranch defaultBranch : String)
  | statusError (error : String) (message : Option String)
  | branchQueryFailed (repository : String) (details : String)
  | pushIgnoredWrongBranch (pushBranch currentBranch : String)
  | ok (r : SuccessResponse)
  deriving DecidableEq

/-- HTTP response: status code and JSON body. -/
structure HttpResponse where
  status : Nat
  body : RespBody
  deriving DecidableEq

/-- Outcome of one request: the response, the final state of the
repository directory, and the effects performed in order. -/
structure HandlerResult where
  response : HttpResponse
  fs : DirState
  trace : List Effect
  deriving DecidableEq

/-- getRepositoryPaths from src/server.js lines 304-308 (path.join for the
simple repository names the handler sees). -/
def getRepositoryPaths (reposDir repoName : String) : String × String :=
  (reposDir ++ "/" ++ repoName, reposDir ++ "/" ++ repoName ++ "/.git")

/-- Classification of determineRepositoryAction (src/server.js lines
310-319). -/
structure RepoAction where
  needsClone : Bool
  pathExists : Bool
  isGitRepo : Bool
  deriving DecidableEq

/-- determineRepositoryAction from src/server.js lines 310-319. -/
def determineRepositoryAction (d : DirState) : RepoAction :=
  let pathExists := dirExists d
  let isGitRepo := hasGitEntry d
  { needsClone := !pathExists || (pathExists && !isGitRepo)
    pathExists := pathExists
    isGitRepo := isGitRepo }

/-- validateClonePrerequisites from src/server.js lines 321-336: throws 404
when auto-clone is disabled, 400 when the payload carries no truthy SSH
URL. -/
def validateClonePrerequisites (cfg : Config) (repoSshUrl : Option String) (repoPath : String) :
    Except ThrownError Unit :=
  if !cfg.autoClone then
    Except.error ⟨404, "Repository directory not found",
      some ("Auto-clone is disabled. Please clone the repository to " ++ repoPath ++
        " manually or enable autoClone in config")⟩
  else if !(truthy repoSshUrl) then
    Except.error ⟨400, "No repository SSH URL found in payload", none⟩
  else Except.ok ()

/-- prepareRepositoryDirectory from src/server.js lines 338-349: create the
directory when absent; throw 400 when it exists and is not empty under
isDirectoryEmpty; otherwise leave it.  Returns the directory state at
clone time and the effects performed on the success paths. -/
def prepareRepositoryDirectory (repoPath : String) (d : DirState) :
    Except ThrownError (DirState × List Effect) :=
  match d with
  | none => Except.ok (some [], [Effect.fsExistsRepo, Effect.fsMkdir])
  | some es =>
    if !(isDirectoryEmpty es) then
      Except.error ⟨400, "Directory exists but is not empty",
        some (repoPath ++ " exists and contains files but is not a git repository." ++
          " Please clean it manually.")⟩
    else Except.ok (some es, [Effect.fsExistsRepo, Effect.fsReaddir])

/-- handleRepositoryClone from src/server.js lines 351-365: on success the
directory holds what the clone produced; on failure cleanupDirectory runs
and the thrown buildErrorResponse, caught by the status branch of the
outer handler, yields a 500 response whose body carries only the error
text (the thrown object has no message field). -/
def handleRepositoryClone (git : GitEnv) (repoName defaultBranch : String) (_d : DirState) :
    HttpResponse × DirState × List Effect :=
  match git.clone with
  | Except.ok r =>
    (⟨200, RespBody.ok (buildSuccessResponse repoName "cloned" r.stdout (some defaultBranch))⟩,
      some git.entriesAfterClone, [Effect.execClone])
  | Except.error e =>
    let cleaned := cleanupDirectory git.rmThrows (some git.entriesAfterClone)
    let er := buildErrorResponse repoName "clone" (jsOr e.errorMsg "Git clone failed")
      (some e.stderr) (some 500)
    (⟨500, RespBody.statusError er.error none⟩, cleaned.1, Effect.execClone :: cleaned.2)

/-- handleRepositoryPull from src/server.js lines 367-380; failures are
thrown as buildErrorResponse with status 500 and caught by the status
branch of the outer handler. -/
def handleRepositoryPull (git : GitEnv) (repoName : String) (d : DirState) :
    HttpResponse × DirState × List Effect :=
  match git.pull with
  | Except.ok r =>
    (⟨200, RespBody.ok (buildSuccessResponse repoName "pulled" r.stdout none)⟩,
      some git.entriesAfterPull, [Effect.execPull])
  | Except.error e =>
    let er := buildErrorResponse repoName "pull" (jsOr e.errorMsg "Git pull failed")
      (some e.stderr) (some 500)
    (⟨500, RespBody.statusError er.error none⟩, d, [Effect.execPull])

/-- handleWebhookRequest from src/server.js lines 386-498.  `hmac` and
`parseJson` are the external crypto and JSON capabilities, `git` the
external command oracle, `d0` the state of the repository directory when
the request arrives, `body` the raw request bytes, `signature` and
`event` the two headers. -/
def handleWebhookRequest (hmac : Bytes → Bytes → Bytes)
    (parseJson : Bytes → Option Payload) (cfg : Config) (git : GitEnv)
    (reposDir : String) (d0 : DirState) (body : Bytes)
    (signature : Option String) (event : Option String) : HandlerResult :=
  if !(validateGitHubSignature hmac cfg.githubWebhookSecret body signature) then
    ⟨⟨401, RespBody.unauthorized⟩, d0, []⟩
  else
    match parseJson body with
    | none => ⟨⟨400, RespBody.payloadError "Invalid JSON payload"⟩, d0, []⟩
    | some payload =>
      let repoInfo := extractRepositoryInfo cfg payload
      match repoInfo.name with
      | none => ⟨⟨400, RespBody.payloadError "No repository name found"⟩, d0, []⟩
      | some repoName =>
        if repoName = "" then ⟨⟨400, RespBody.payloadError "No repository name found"⟩, d0, []⟩
        else if event ≠ some "push" then ⟨⟨200, RespBody.eventIgnored event⟩, d0, []⟩
        else
          match extractBranchFromRef payload.ref with
          | none => ⟨⟨400, RespBody.invalidRef payload.ref⟩, d0, []⟩
          | some pushBranch =>
            let repoPath := (getRepositoryPaths reposDir repoName).1
            let act := determineRepositoryAction d0
            let probe : List Effect := [Effect.fsExistsRepo, Effect.fsExistsGit]
            if act.needsClone then
              if pushBranch ≠ repoInfo.defaultBranch then
                ⟨⟨200, RespBody.pushIgnoredNotCloned pushBranch repoInfo.defaultBranch⟩, d0, probe⟩
              else
                match validateClonePrerequisites cfg repoInfo.sshUrl repoPath with
                | Except.error te => ⟨⟨te.status, RespBody.statusError te.error te.message⟩, d0, probe⟩
                | Except.ok _ =>
                  match prepareRepositoryDirectory repoPath d0 with
                  | Except.error te =>
                    ⟨⟨te.status, RespBody.statusError te.error te.message⟩, d0,
                      probe ++ [Effect.fsExistsRepo, Effect.fsReaddir]⟩
                  | Except.ok pd =>
                    let step := handleRepositoryClone git repoName repoInfo.defaultBranch pd.1
                    ⟨step.1, step.2.1, probe ++ pd.2 ++ step.2.2⟩
            else
              match git.branch with
              | Except.error e =>
                ⟨⟨500, RespBody.branchQueryFailed repoName (jsOr e.errorMsg e.stderr)⟩, d0,
                  probe ++ [Effect.execBranch]⟩
              | Except.ok r =>
                let currentBranch := jsTrim r.stdout
                if pushBranch ≠ currentBranch then
                  ⟨⟨200, RespBody.pushIgnoredWrongBranch pushBranch currentBranch⟩, d0,
                    probe ++ [Effect.execBranch]⟩
                else
                  let step := handleRepositoryPull git repoName d0
                  ⟨step.1, step.2.1, probe ++ [Effect.execBranch] ++ step.2.2⟩

/-- Concrete scenario: a constant HMAC capability whose digest is the
empty byte list, so the matching signature header is the bare prefix. -/
def hmac0 : Bytes → Bytes → Bytes := fun _ _ => []

/-- Concrete matching signature header for hmac0. -/
def sig0 : Option String := some "sha256="

/-- Concrete payload of the worked example in the specification. -/
def payload0 : Payload :=
  { repository := some
      { name := some "app"
        ssh_url := some "git@host:org/app.git"
        default_branch := some "main" }
    ref := some "refs/heads/main" }

/-- Concrete JSON capability returning payload0 for every body. -/
def parse0 : Bytes → Option Payload := fun _ => some payload0

/-- Concrete payload that differs from payload0 only in its ref. -/
def payload1 : Payload :=
  { repository := payload0.repository, ref := some "refs/tags/v1" }

/-- Concrete JSON capability returning payload1 for every body. -/
def parse1 : Bytes → Option Payload := fun _ => some payload1

/-- Concrete configuration. -/
def cfg0 : Config :=
  { githubWebhookSecret := [], defaultBranch := "main", autoClone := true }

/-- Concrete oracle where every git command succeeds. -/
def gitOk : GitEnv :=
  { clone := Except.ok ⟨"done", ""⟩
    entriesAfterClone := [".git", "src"]
    branch := Except.ok ⟨"main\n", ""⟩
    pull := Except.ok ⟨"Already up to date.", ""⟩
    entriesAfterPull := [".git", "src"]
    rmThrows := false }

/-- Concrete oracle where the clone command fails leaving nothing behind. -/
def gitCloneFail : GitEnv :=
  { gitOk with
    clone := Except.error ⟨"clone failed", "fatal: could not read from remote"⟩
    entriesAfterClone := [] }

/-- Concrete oracle where the branch query fails. -/
def gitBranchFail : GitEnv :=
  { gitOk with branch := Except.error ⟨"boom", "fatal: not a git repository"⟩ }

theorem stringData_append (a b : String) : (a ++ b).data = a.data ++ b.data := by
  cases a
  cases b
  rfl

theorem sha256Prefix_ne_empty (x : String) : ("sha256=" ++ x) ≠ "" := by
  intro h
  have h2 : ("sha256=" ++ x).data = ("" : String).data := congrArg String.data h
  rw [stringData_append] at h2
  have h3 := (List.append_eq_nil.mp h2).1
  exact absurd h3 (by decide)

/-- C1: validateGitHubSignature returns true exactly when the claimed
signature equals sha256= followed by the lowercase hex HMAC-SHA256 of the
exact raw body under the secret; in every other case (header absent or
empty, byte length mismatch, or byte-wise inequality) it returns false. -/
theorem validateGitHubSignature_true_iff (hmac : Bytes → Bytes → Bytes)
    (secret payload : Bytes) (signature : Option String) :
    validateGitHubSignature hmac secret payload signature = true ↔
      signature = some ("sha256=" ++ bytesToHex (hmac secret payload)) := by
  cases signature with
  | none => simp [validateGitHubSignature]
  | some s =>
    simp only [validateGitHubSignature, Option.some.injEq]
    by_cases hs : s = ""
    · subst hs
      simp only [if_pos rfl]
      constructor
      · intro h
        cases h
      · intro h
        exact absurd h.symm (sha256Prefix_ne_empty _)
    · simp only [if_neg hs, timingSafeEqual]
      by_cases hlen : s.utf8ByteSize = ("sha256=" ++ bytesToHex (hmac secret payload)).utf8ByteSize
      · simp [hlen]
      · simp only [if_neg hlen]
        constructor
        · intro h
          cases h
        · intro h
          exact absurd (congrArg String.utf8ByteSize h) hlen

theorem charListPrefix_append (l r : List Char) : l.isPrefixOf (l ++ r) = true := by
  induction l with
  | nil => simp [List.isPrefixOf]
  | cons a as ih => simp [List.isPrefixOf, ih]

/-- C9 counterexample: a ref of the form refs/heads/ followed by a
non-empty remainder on which extractBranchFromRef nevertheless returns
none, because the dot of the regular expression does not match a line
terminator character inside the remainder. -/
theorem extractBranchFromRef_newline_refutes :
    "refs/heads/a\nb" = "refs/heads/" ++ "a\nb" ∧ "a\nb" ≠ "" ∧
      extractBranchFromRef (some "refs/heads/a\nb") = none := by
  refine ⟨rfl, by decide, ?_⟩
  decide

/-- C9 amended: for every ref of the form refs/heads/ followed by a
non-empty remainder containing no line terminator characters,
extractBranchFromRef returns the entire remainder, including any further
slash separators; it returns none for refs/heads/ with nothing after the
prefix.  (The unamended claim fails only when the remainder contains a
line terminator, which the regular expression dot cannot match.) -/
theorem extractBranchFromRef_amended (rest : String)
    (h1 : rest.data ≠ [])
    (h2 : rest.data.all (fun c => !(isLineTerminator c)) = true) :
    extractBranchFromRef (some ("refs/heads/" ++ rest)) = some rest ∧
      extractBranchFromRef (some "refs/heads/") = none := by
  constructor
  · have hne : ("refs/heads/" ++ rest) ≠ "" := by
      intro h
      have hd : ("refs/heads/" ++ rest).data = ("" : String).data := congrArg String.data h
      rw [stringData_append] at hd
      exact absurd ((List.append_eq_nil.mp hd).1) (by decide)
    have hdata : ("refs/heads/" ++ rest).data = "refs/heads/".data ++ rest.data :=
      stringData_append _ _
    simp only [extractBranchFromRef, if_neg hne, hdata, charListPrefix_append, if_pos,
      List.drop_left, h1, h2]
    simp [h1, h2]
  · decide

/-- C9 amended witness: a branch name containing a slash is returned
whole, never truncated at the slash. -/
theorem extractBranchFromRef_amended_witness :
    ("feature/x" : String).data ≠ [] ∧
      ("feature/x" : String).data.all (fun c => !(isLineTerminator c)) = true ∧
      (extractBranchFromRef (some ("refs/heads/" ++ "feature/x")) = some "feature/x" ∧
        extractBranchFromRef (some "refs/heads/") = none) :=
  ⟨by decide, by decide, extractBranchFromRef_amended "feature/x" (by decide) (by decide)⟩

theorem jsOr_absorb (a c : String) : jsOr (jsOr a c) c = jsOr a c := by
  by_cases h : a = "" <;> by_cases h2 : c = "" <;> simp [jsOr, h, h2]

/-- C8: a request that passes signature validation and payload parsing
with a repository name present but whose event header is not push yields
an immediate successful skip: status 200 with the event-ignored body, an
unchanged directory, an empty effect trace (no filesystem access), and
the same outcome for any payload that differs only outside the repository
object (in particular in its ref), so branch extraction is never
consulted. -/
theorem handleWebhook_nonPush_shortCircuit
    (hmac : Bytes → Bytes → Bytes) (parseJson parseJson2 : Bytes → Option Payload)
    (cfg : Config) (git : GitEnv) (reposDir : String) (d0 : DirState) (body : Bytes)
    (signature event : Option String) (p p2 : Payload) (n : String) (R R2 : HandlerResult)
    (hSig : validateGitHubSignature hmac cfg.githubWebhookSecret body signature = true)
    (hParse : parseJson body = some p)
    (hName : (extractRepositoryInfo cfg p).name = some n)
    (hn : n ≠ "")
    (hEv : event ≠ some "push")
    (hParse2 : parseJson2 body = some p2)
    (hRepo : p2.repository = p.repository)
    (hR : R = handleWebhookRequest hmac parseJson cfg git reposDir d0 body signature event)
    (hR2 : R2 = handleWebhookRequest hmac parseJson2 cfg git reposDir d0 body signature event) :
    R = ⟨⟨200, RespBody.eventIgnored event⟩, d0, []⟩ ∧ R2 = R := by
  subst hR hR2
  have hName2 : (extractRepositoryInfo cfg p2).name = some n := by
    simp only [extractRepositoryInfo, hRepo]
    simpa only [extractRepositoryInfo] using hName
  constructor
  · simp [handleWebhookRequest, hSig, hParse, hName, hn, hEv]
  · simp [handleWebhookRequest, hSig, hParse, hParse2, hName, hName2, hn, hEv]

/-- C8 witness: the same non-push delivery with two payloads that share
the repository object but differ in their ref produces the identical
immediate skip with an empty trace. -/
theorem handleWebhook_nonPush_shortCircuit_witness :
    validateGitHubSignature hmac0 cfg0.githubWebhookSecret [] sig0 = true ∧
      parse0 [] = some payload0 ∧
      (extractRepositoryInfo cfg0 payload0).name = some "app" ∧
      parse1 [] = some payload1 ∧
      payload1.repository = payload0.repository ∧
      (handleWebhookRequest hmac0 parse0 cfg0 gitOk "repos" none [] sig0 (some "issues") =
          ⟨⟨200, RespBody.eventIgnored (some "issues")⟩, none, []⟩ ∧
        handleWebhookRequest hmac0 parse1 cfg0 gitOk "repos" none [] sig0 (some "issues") =
          handleWebhookRequest hmac0 parse0 cfg0 gitOk "repos" none [] sig0 (some "issues")) :=
  ⟨by decide, rfl, rfl, rfl, rfl,
    handleWebhook_nonPush_shortCircuit hmac0 parse0 parse1 cfg0 gitOk "repos" none []
      sig0 (some "issues") payload0 payload1 "app" _ _ (by decide) rfl rfl (by decide)
      (by decide) rfl rfl rfl rfl⟩

/-- C6: a push for branch b against an existing git mirror whose branch
query reports a different current branch yields the successful skip
response, leaves the directory untouched, and performs no clone, pull,
directory creation or removal: the trace holds exactly the two existence
probes and the branch query. -/
theorem handleWebhook_wrongBranch_skip_frame
    (hmac : Bytes → Bytes → Bytes) (parseJson : Bytes → Option Payload)
    (cfg : Config) (git : GitEnv) (reposDir : String) (d0 : DirState) (body : Bytes)
    (signature event : Option String) (p : Payload) (n b : String) (r : ExecResult)
    (R : HandlerResult)
    (hSig : validateGitHubSignature hmac cfg.githubWebhookSecret body signature = true)
    (hParse : parseJson body = some p)
    (hName : (extractRepositoryInfo cfg p).name = some n)
    (hn : n ≠ "")
    (hEv : event = some "push")
    (hBr : extractBranchFromRef p.ref = some b)
    (hGit : hasGitEntry d0 = true)
    (hQ : git.branch = Except.ok r)
    (hNe : b ≠ jsTrim r.stdout)
    (hR : R = handleWebhookRequest hmac parseJson cfg git reposDir d0 body signature event) :
    R.response = ⟨200, RespBody.pushIgnoredWrongBranch b (jsTrim r.stdout)⟩ ∧ R.fs = d0 ∧
      R.trace = [Effect.fsExistsRepo, Effect.fsExistsGit, Effect.execBranch] ∧
      Effect.execClone ∉ R.trace ∧ Effect.execPull ∉ R.trace ∧
      Effect.fsMkdir ∉ R.trace ∧ Effect.fsRm ∉ R.trace := by
  subst hR hEv
  have hEx : dirExists d0 = true := by
    cases d0 with
    | none => simp [hasGitEntry] at hGit
    | some es => rfl
  have hNeeds : (determineRepositoryAction d0).needsClone = false := by
    simp [determineRepositoryAction, hEx, hGit]
  simp [handleWebhookRequest, hSig, hParse, hName, hn, hBr, hNeeds, hQ, hNe]

/-- C6 witness: a push to feature-x while the mirror is on main is skipped
with the filesystem unmodified. -/
theorem handleWebhook_wrongBranch_skip_frame_witness :
    validateGitHubSignature hmac0 cfg0.githubWebhookSecret [] sig0 = true ∧
      extractBranchFromRef (some "refs/heads/feature-x") = some "feature-x" ∧
      hasGitEntry (some [".git", "src"]) = true ∧
      gitOk.branch = Except.ok ⟨"main\n", ""⟩ ∧
      ("feature-x" : String) ≠ jsTrim "main\n" ∧
      ((handleWebhookRequest hmac0 (fun _ => some { payload0 with ref := some "refs/heads/feature-x" })
          cfg0 gitOk "repos" (some [".git", "src"]) [] sig0 (some "push")).response =
        ⟨200, RespBody.pushIgnoredWrongBranch "feature-x" (jsTrim "main\n")⟩ ∧
      (handleWebhookRequest hmac0 (fun _ => some { payload0 with ref := some "refs/heads/feature-x" })
          cfg0 gitOk "repos" (some [".git", "src"]) [] sig0 (some "push")).fs =
        some [".git", "src"] ∧
      (handleWebhookRequest hmac0 (fun _ => some { payload0 with ref := some "refs/heads/feature-x" })
          cfg0 gitOk "repos" (some [".git", "src"]) [] sig0 (some "push")).trace =
        [Effect.fsExistsRepo, Effect.fsExistsGit, Effect.execBranch] ∧
      Effect.execClone ∉ (handleWebhookRequest hmac0
          (fun _ => some { payload0 with ref := some "refs/heads/feature-x" })
          cfg0 gitOk "repos" (some [".git", "src"]) [] sig0 (some "push")).trace ∧
      Effect.execPull ∉ (handleWebhookRequest hmac0
          (fun _ => some { payload0 with ref := some "refs/heads/feature-x" })
          cfg0 gitOk "repos" (some [".git", "src"]) [] sig0 (some "push")).trace ∧
      Effect.fsMkdir ∉ (handleWebhookRequest hmac0
          (fun _ => some { payload0 with ref := some "refs/heads/feature-x" })
          cfg0 gitOk "repos" (some [".git", "src"]) [] sig0 (some "push")).trace ∧
      Effect.fsRm ∉ (handleWebhookRequest hmac0
          (fun _ => some { payload0 with ref := some "refs/heads/feature-x" })
          cfg0 gitOk "repos" (some [".git", "src"]) [] sig0 (some "push")).trace) :=
  ⟨by decide, by decide, by decide, rfl, by decide,
    handleWebhook_wrongBranch_skip_frame hmac0
      (fun _ => some { payload0 with ref := some "refs/heads/feature-x" }) cfg0 gitOk "repos"
      (some [".git", "src"]) [] sig0 (some "push")
      { payload0 with ref := some "refs/heads/feature-x" } "app" "feature-x" ⟨"main\n", ""⟩ _
      (by decide) rfl rfl (by decide) rfl (by decide) (by decide) rfl (by decide) rfl⟩

/-- C7: a push against an existing git mirror whose branch query fails
terminates with the 500 branch-query-failure response carrying the
diagnostic text (the command error message, or its stderr when the
message is empty), no pull is attempted, and the directory is untouched. -/
theorem handleWebhook_branchQueryFailure
    (hmac : Bytes → Bytes → Bytes) (parseJson : Bytes → Option Payload)
    (cfg : Config) (git : GitEnv) (reposDir : String) (d0 : DirState) (body : Bytes)
    (signature event : Option String) (p : Payload) (n b : String) (e : ExecError)
    (R : HandlerResult)
    (hSig : validateGitHubSignature hmac cfg.githubWebhookSecret body signature = true)
    (hParse : parseJson body = some p)
    (hName : (extractRepositoryInfo cfg p).name = some n)
    (hn : n ≠ "")
    (hEv : event = some "push")
    (hBr : extractBranchFromRef p.ref = some b)
    (hGit : hasGitEntry d0 = true)
    (hQ : git.branch = Except.error e)
    (hR : R = handleWebhookRequest hmac parseJson cfg git reposDir d0 body signature event) :
    R.response = ⟨500, RespBody.branchQueryFailed n (jsOr e.errorMsg e.stderr)⟩ ∧
      Effect.execPull ∉ R.trace ∧ Effect.execClone ∉ R.trace ∧ R.fs = d0 := by
  subst hR hEv
  have hEx : dirExists d0 = true := by
    cases d0 with
    | none => simp [hasGitEntry] at hGit
    | some es => rfl
  have hNeeds : (determineRepositoryAction d0).needsClone = false := by
    simp [determineRepositoryAction, hEx, hGit]
  simp [handleWebhookRequest, hSig, hParse, hName, hn, hBr, hNeeds, hQ]

/-- C7 witness: a failing branch query on an existing mirror produces the
500 diagnostic response and no pull. -/
theorem handleWebhook_branchQueryFailure_witness :
    validateGitHubSignature hmac0 cfg0.githubWebhookSecret [] sig0 = true ∧
      hasGitEntry (some [".git"]) = true ∧
      gitBranchFail.branch = Except.error ⟨"boom", "fatal: not a git repository"⟩ ∧
      ((handleWebhookRequest hmac0 parse0 cfg0 gitBranchFail "repos" (some [".git"]) [] sig0
          (some "push")).response =
        ⟨500, RespBody.branchQueryFailed "app"
          (jsOr ("boom") ("fatal: not a git repository"))⟩ ∧
      Effect.execPull ∉ (handleWebhookRequest hmac0 parse0 cfg0 gitBranchFail "repos"
          (some [".git"]) [] sig0 (some "push")).trace ∧
      Effect.execClone ∉ (handleWebhookRequest hmac0 parse0 cfg0 gitBranchFail "repos"
          (some [".git"]) [] sig0 (some "push")).trace ∧
      (handleWebhookRequest hmac0 parse0 cfg0 gitBranchFail "repos" (some [".git"]) [] sig0
          (some "push")).fs = some [".git"]) :=
  ⟨by decide, by decide, rfl,
    handleWebhook_branchQueryFailure hmac0 parse0 cfg0 gitBranchFail "repos" (some [".git"])
      [] sig0 (some "push") payload0 "app" "main" ⟨"boom", "fatal: not a git repository"⟩ _
      (by decide) rfl rfl (by decide) rfl (by decide) (by decide) rfl rfl⟩

/-- C3: for a valid push whose repository directory lacks git metadata,
the clone decision applies its gates in order: wrong branch gives a
successful skip with no action; then disabled auto-clone gives 404; then
a missing SSH URL gives 400; then an existing non-empty directory gives
the 400 conflict with the directory untouched; otherwise the directory is
created when absent and exactly one clone is attempted. -/
theorem handleWebhook_cloneDecision_gates
    (hmac : Bytes → Bytes → Bytes) (parseJson : Bytes → Option Payload)
    (cfg : Config) (git : GitEnv) (reposDir : String) (d0 : DirState) (body : Bytes)
    (signature event : Option String) (p : Payload) (n b : String) (R : HandlerResult)
    (hSig : validateGitHubSignature hmac cfg.githubWebhookSecret body signature = true)
    (hParse : parseJson body = some p)
    (hName : (extractRepositoryInfo cfg p).name = some n)
    (hn : n ≠ "")
    (hEv : event = some "push")
    (hBr : extractBranchFromRef p.ref = some b)
    (hNoGit : hasGitEntry d0 = false)
    (hR : R = handleWebhookRequest hmac parseJson cfg git reposDir d0 body signature event) :
    (b ≠ (extractRepositoryInfo cfg p).defaultBranch →
      R.response = ⟨200, RespBody.pushIgnoredNotCloned b (extractRepositoryInfo cfg p).defaultBranch⟩ ∧
      R.fs = d0 ∧ R.trace = [Effect.fsExistsRepo, Effect.fsExistsGit]) ∧
    (b = (extractRepositoryInfo cfg p).defaultBranch → cfg.autoClone = false →
      R.response.status = 404 ∧ R.fs = d0 ∧
      R.trace = [Effect.fsExistsRepo, Effect.fsExistsGit]) ∧
    (b = (extractRepositoryInfo cfg p).defaultBranch → cfg.autoClone = true →
      truthy (extractRepositoryInfo cfg p).sshUrl = false →
      R.response = ⟨400, RespBody.statusError "No repository SSH URL found in payload" none⟩ ∧
      R.fs = d0 ∧ R.trace = [Effect.fsExistsRepo, Effect.fsExistsGit]) ∧
    (b = (extractRepositoryInfo cfg p).defaultBranch → cfg.autoClone = true →
      truthy (extractRepositoryInfo cfg p).sshUrl = true → dirNonEmpty d0 = true →
      R.response.status = 400 ∧
      R.response.body = RespBody.statusError "Directory exists but is not empty"
        (some ((getRepositoryPaths reposDir n).1 ++
          " exists and contains files but is not a git repository." ++
          " Please clean it manually.")) ∧
      R.fs = d0 ∧ Effect.execClone ∉ R.trace ∧ Effect.fsMkdir ∉ R.trace ∧
      Effect.fsRm ∉ R.trace) ∧
    (b = (extractRepositoryInfo cfg p).defaultBranch → cfg.autoClone = true →
      truthy (extractRepositoryInfo cfg p).sshUrl = true → dirNonEmpty d0 = false →
      R.trace.count Effect.execClone = 1 ∧ (d0 = none → Effect.fsMkdir ∈ R.trace)) := by
  subst hR hEv
  have hNeeds : (determineRepositoryAction d0).needsClone = true := by
    cases d0 with
    | none => rfl
    | some es =>
      have hm : ".git" ∉ es := by simpa [hasGitEntry] using hNoGit
      simp [determineRepositoryAction, dirExists, hasGitEntry, hm]
  refine ⟨?_, ?_, ?_, ?_, ?_⟩
  · intro hb
    simp [handleWebhookRequest, hSig, hParse, hName, hn, hBr, hNeeds, hb]
  · intro hb hAuto
    simp [handleWebhookRequest, hSig, hParse, hName, hn, hBr, hNeeds, hb,
      validateClonePrerequisites, hAuto]
  · intro hb hAuto hUrl
    simp [handleWebhookRequest, hSig, hParse, hName, hn, hBr, hNeeds, hb,
      validateClonePrerequisites, hAuto, hUrl]
  · intro hb hAuto hUrl hNE
    cases d0 with
    | none => simp [dirNonEmpty] at hNE
    | some es =>
      simp only [dirNonEmpty, Bool.not_eq_true'] at hNE
      simp [handleWebhookRequest, hSig, hParse, hName, hn, hBr, hNeeds, hb,
        validateClonePrerequisites, hAuto, hUrl, prepareRepositoryDirectory, hNE,
        getRepositoryPaths]
  · intro hb hAuto hUrl hNE
    cases d0 with
    | none =>
      rcases hc : git.clone with e | r <;>
        by_cases hE : isDirectoryEmpty git.entriesAfterClone <;>
        by_cases hT : git.rmThrows <;>
        simp [handleWebhookRequest, hSig, hParse, hName, hn, hBr, hNeeds, hb,
          validateClonePrerequisites, hAuto, hUrl, prepareRepositoryDirectory,
          handleRepositoryClone, cleanupDirectory, hc, hE, hT]
    | some es =>
      simp only [dirNonEmpty, Bool.not_eq_false] at hNE
      rcases hc : git.clone with e | r <;>
        by_cases hE : isDirectoryEmpty git.entriesAfterClone <;>
        by_cases hT : git.rmThrows <;>
        simp [handleWebhookRequest, hSig, hParse, hName, hn, hBr, hNeeds, hb,
          validateClonePrerequisites, hAuto, hUrl, prepareRepositoryDirectory,
          handleRepositoryClone, cleanupDirectory, hc, hE, hT, hNE]

/-- C3 witness: the gate cascade instantiated at the concrete first-clone
scenario (absent directory, default branch push, auto-clone on). -/
theorem handleWebhook_cloneDecision_gates_witness :
    validateGitHubSignature hmac0 cfg0.githubWebhookSecret [] sig0 = true ∧
      parse0 [] = some payload0 ∧
      (extractRepositoryInfo cfg0 payload0).name = some "app" ∧
      hasGitEntry none = false ∧
      (("main" ≠ (extractRepositoryInfo cfg0 payload0).defaultBranch →
        (handleWebhookRequest hmac0 parse0 cfg0 gitOk "repos" none [] sig0 (some "push")).response =
          ⟨200, RespBody.pushIgnoredNotCloned "main" (extractRepositoryInfo cfg0 payload0).defaultBranch⟩ ∧
        (handleWebhookRequest hmac0 parse0 cfg0 gitOk "repos" none [] sig0 (some "push")).fs = none ∧
        (handleWebhookRequest hmac0 parse0 cfg0 gitOk "repos" none [] sig0 (some "push")).trace =
          [Effect.fsExistsRepo, Effect.fsExistsGit]) ∧
      ("main" = (extractRepositoryInfo cfg0 payload0).defaultBranch → cfg0.autoClone = false →
        (handleWebhookRequest hmac0 parse0 cfg0 gitOk "repos" none [] sig0 (some "push")).response.status = 404 ∧
        (handleWebhookRequest hmac0 parse0 cfg0 gitOk "repos" none [] sig0 (some "push")).fs = none ∧
        (handleWebhookRequest hmac0 parse0 cfg0 gitOk "repos" none [] sig0 (some "push")).trace =
          [Effect.fsExistsRepo, Effect.fsExistsGit]) ∧
      ("main" = (extractRepositoryInfo cfg0 payload0).defaultBranch → cfg0.autoClone = true →
        truthy (extractRepositoryInfo cfg0 payload0).sshUrl = false →
        (handleWebhookRequest hmac0 parse0 cfg0 gitOk "repos" none [] sig0 (some "push")).response =
          ⟨400, RespBody.statusError "No repository SSH URL found in payload" none⟩ ∧
        (handleWebhookRequest hmac0 parse0 cfg0 gitOk "repos" none [] sig0 (some "push")).fs = none ∧
        (handleWebhookRequest hmac0 parse0 cfg0 gitOk "repos" none [] sig0 (some "push")).trace =
          [Effect.fsExistsRepo, Effect.fsExistsGit]) ∧
      ("main" = (extractRepositoryInfo cfg0 payload0).defaultBranch → cfg0.autoClone = true →
        truthy (extractRepositoryInfo cfg0 payload0).sshUrl = true → dirNonEmpty none = true →
        (handleWebhookRequest hmac0 parse0 cfg0 gitOk "repos" none [] sig0 (some "push")).response.status = 400 ∧
        (handleWebhookRequest hmac0 parse0 cfg0 gitOk "repos" none [] sig0 (some "push")).response.body =
          RespBody.statusError "Directory exists but is not empty"
            (some ((getRepositoryPaths "repos" "app").1 ++
              " exists and contains files but is not a git repository." ++
              " Please clean it manually.")) ∧
        (handleWebhookRequest hmac0 parse0 cfg0 gitOk "repos" none [] sig0 (some "push")).fs = none ∧
        Effect.execClone ∉ (handleWebhookRequest hmac0 parse0 cfg0 gitOk "repos" none [] sig0 (some "push")).trace ∧
        Effect.fsMkdir ∉ (handleWebhookRequest hmac0 parse0 cfg0 gitOk "repos" none [] sig0 (some "push")).trace ∧
        Effect.fsRm ∉ (handleWebhookRequest hmac0 parse0 cfg0 gitOk "repos" none [] sig0 (some "push")).trace) ∧
      ("main" = (extractRepositoryInfo cfg0 payload0).defaultBranch → cfg0.autoClone = true →
        truthy (extractRepositoryInfo cfg0 payload0).sshUrl = true → dirNonEmpty none = false →
        (handleWebhookRequest hmac0 parse0 cfg0 gitOk "repos" none [] sig0 (some "push")).trace.count
          Effect.execClone = 1 ∧
        ((none : DirState) = none →
          Effect.fsMkdir ∈ (handleWebhookRequest hmac0 parse0 cfg0 gitOk "repos" none [] sig0 (some "push")).trace))) :=
  ⟨by decide, rfl, rfl, rfl,
    handleWebhook_cloneDecision_gates hmac0 parse0 cfg0 gitOk "repos" none [] sig0
      (some "push") payload0 "app" "main" _ (by decide) rfl rfl (by decide) rfl (by decide)
      rfl rfl⟩

/-- C4: whenever the clone attempt fails on a request that reached it, the
request terminates with status 500 and a body carrying the clone command
error text, and the directory afterwards is removed when it is empty
under the isDirectoryEmpty predicate and left untouched with its contents
when it is not: non-empty content is never deleted. -/
theorem handleWebhook_cloneFailure_cleanup
    (hmac : Bytes → Bytes → Bytes) (parseJson : Bytes → Option Payload)
    (cfg : Config) (git : GitEnv) (reposDir : String) (d0 : DirState) (body : Bytes)
    (signature event : Option String) (p : Payload) (n b : String) (e : ExecError)
    (R : HandlerResult)
    (hSig : validateGitHubSignature hmac cfg.githubWebhookSecret body signature = true)
    (hParse : parseJson body = some p)
    (hName : (extractRepositoryInfo cfg p).name = some n)
    (hn : n ≠ "")
    (hEv : event = some "push")
    (hBr : extractBranchFromRef p.ref = some b)
    (hNoGit : hasGitEntry d0 = false)
    (hb : b = (extractRepositoryInfo cfg p).defaultBranch)
    (hAuto : cfg.autoClone = true)
    (hUrl : truthy (extractRepositoryInfo cfg p).sshUrl = true)
    (hNE : dirNonEmpty d0 = false)
    (hClone : git.clone = Except.error e)
    (hMsg : e.errorMsg ≠ "")
    (hRm : git.rmThrows = false)
    (hR : R = handleWebhookRequest hmac parseJson cfg git reposDir d0 body signature event) :
    R.response = ⟨500, RespBody.statusError e.errorMsg none⟩ ∧
      R.fs = (if isDirectoryEmpty git.entriesAfterClone then none
        else some git.entriesAfterClone) := by
  subst hR hEv
  have hNeeds : (determineRepositoryAction d0).needsClone = true := by
    cases d0 with
    | none => rfl
    | some es =>
      have hm : ".git" ∉ es := by simpa [hasGitEntry] using hNoGit
      simp [determineRepositoryAction, dirExists, hasGitEntry, hm]
  have herr : jsOr (jsOr e.errorMsg "Git clone failed") ("Git " ++ "clone" ++ " failed") =
      e.errorMsg := by
    simp [jsOr, hMsg]
  cases d0 with
  | none =>
    by_cases hE : isDirectoryEmpty git.entriesAfterClone <;>
      simp [handleWebhookRequest, hSig, hParse, hName, hn, hBr, hNeeds, hb,
        validateClonePrerequisites, hAuto, hUrl, prepareRepositoryDirectory,
        handleRepositoryClone, cleanupDirectory, buildErrorResponse, hClone, hRm, hE, jsOr, hMsg]
  | some es =>
    simp only [dirNonEmpty, Bool.not_eq_false] at hNE
    by_cases hE : isDirectoryEmpty git.entriesAfterClone <;>
      simp [handleWebhookRequest, hSig, hParse, hName, hn, hBr, hNeeds, hb,
        validateClonePrerequisites, hAuto, hUrl, prepareRepositoryDirectory,
        handleRepositoryClone, cleanupDirectory, buildErrorResponse, hClone, hRm, hE, hNE,
        jsOr, hMsg]

/-- C4 witness: a failing clone into a freshly created directory returns
the 500 response with the command error text and removes the directory,
which the failed attempt left empty. -/
theorem handleWebhook_cloneFailure_cleanup_witness :
    validateGitHubSignature hmac0 cfg0.githubWebhookSecret [] sig0 = true ∧
      gitCloneFail.clone = Except.error ⟨"clone failed", "fatal: could not read from remote"⟩ ∧
      gitCloneFail.rmThrows = false ∧
      ((handleWebhookRequest hmac0 parse0 cfg0 gitCloneFail "repos" none [] sig0
          (some "push")).response = ⟨500, RespBody.statusError "clone failed" none⟩ ∧
        (handleWebhookRequest hmac0 parse0 cfg0 gitCloneFail "repos" none [] sig0
          (some "push")).fs =
          (if isDirectoryEmpty gitCloneFail.entriesAfterClone then none
            else some gitCloneFail.entriesAfterClone)) :=
  ⟨by decide, rfl, rfl,
    handleWebhook_cloneFailure_cleanup hmac0 parse0 cfg0 gitCloneFail "repos" none [] sig0
      (some "push") payload0 "app" "main" ⟨"clone failed", "fatal: could not read from remote"⟩ _
      (by decide) rfl rfl (by decide) rfl (by decide) rfl rfl rfl (by decide) rfl rfl
      (by decide) rfl rfl⟩

/-- C10: a failure of the cleanup that follows a failed clone never
changes the outcome: whether or not the filesystem operations inside
cleanupDirectory throw, the request returns the same 500 response carrying
the clone command error text. -/
theorem handleWebhook_cleanupFailure_transparent
    (hmac : Bytes → Bytes → Bytes) (parseJson : Bytes → Option Payload)
    (cfg : Config) (git : GitEnv) (reposDir : String) (d0 : DirState) (body : Bytes)
    (signature event : Option String) (p : Payload) (n b : String) (e : ExecError)
    (bT : Bool) (R R2 : HandlerResult)
    (hSig : validateGitHubSignature hmac cfg.githubWebhookSecret body signature = true)
    (hParse : parseJson body = some p)
    (hName : (extractRepositoryInfo cfg p).name = some n)
    (hn : n ≠ "")
    (hEv : event = some "push")
    (hBr : extractBranchFromRef p.ref = some b)
    (hNoGit : hasGitEntry d0 = false)
    (hb : b = (extractRepositoryInfo cfg p).defaultBranch)
    (hAuto : cfg.autoClone = true)
    (hUrl : truthy (extractRepositoryInfo cfg p).sshUrl = true)
    (hNE : dirNonEmpty d0 = false)
    (hClone : git.clone = Except.error e)
    (hR : R = handleWebhookRequest hmac parseJson cfg { git with rmThrows := bT }
      reposDir d0 body signature event)
    (hR2 : R2 = handleWebhookRequest hmac parseJson cfg { git with rmThrows := false }
      reposDir d0 body signature event) :
    R.response = ⟨500, RespBody.statusError (jsOr e.errorMsg "Git clone failed") none⟩ ∧
      R.response = R2.response := by
  subst hR hR2 hEv
  have hNeeds : (determineRepositoryAction d0).needsClone = true := by
    cases d0 with
    | none => rfl
    | some es =>
      have hm : ".git" ∉ es := by simpa [hasGitEntry] using hNoGit
      simp [determineRepositoryAction, dirExists, hasGitEntry, hm]
  have hgf : ("Git clone failed" : String) ≠ "" := by decide
  cases d0 with
  | none =>
    by_cases hM : e.errorMsg = "" <;>
      by_cases hE : isDirectoryEmpty git.entriesAfterClone <;>
      cases bT <;>
      simp [handleWebhookRequest, hSig, hParse, hName, hn, hBr, hNeeds, hb,
        validateClonePrerequisites, hAuto, hUrl, prepareRepositoryDirectory,
        handleRepositoryClone, cleanupDirectory, buildErrorResponse, hClone, hE, jsOr, hM, hgf]
  | some es =>
    simp only [dirNonEmpty, Bool.not_eq_false] at hNE
    by_cases hM : e.errorMsg = "" <;>
      by_cases hE : isDirectoryEmpty git.entriesAfterClone <;>
      cases bT <;>
      simp [handleWebhookRequest, hSig, hParse, hName, hn, hBr, hNeeds, hb,
        validateClonePrerequisites, hAuto, hUrl, prepareRepositoryDirectory,
        handleRepositoryClone, cleanupDirectory, buildErrorResponse, hClone, hE, hNE,
        jsOr, hM, hgf]

/-- C10 witness: with the removal throwing, the failing clone still
returns the same 500 response as when the removal succeeds. -/
theorem handleWebhook_cleanupFailure_transparent_witness :
    validateGitHubSignature hmac0 cfg0.githubWebhookSecret [] sig0 = true ∧
      gitCloneFail.clone = Except.error ⟨"clone failed", "fatal: could not read from remote"⟩ ∧
      ((handleWebhookRequest hmac0 parse0 cfg0 { gitCloneFail with rmThrows := true }
          "repos" none [] sig0 (some "push")).response =
        ⟨500, RespBody.statusError (jsOr "clone failed" "Git clone failed") none⟩ ∧
      (handleWebhookRequest hmac0 parse0 cfg0 { gitCloneFail with rmThrows := true }
          "repos" none [] sig0 (some "push")).response =
        (handleWebhookRequest hmac0 parse0 cfg0 { gitCloneFail with rmThrows := false }
          "repos" none [] sig0 (some "push")).response) :=
  ⟨by decide, rfl,
    handleWebhook_cleanupFailure_transparent hmac0 parse0 cfg0 gitCloneFail "repos" none []
      sig0 (some "push") payload0 "app" "main"
      ⟨"clone failed", "fatal: could not read from remote"⟩ true _ _
      (by decide) rfl rfl (by decide) rfl (by decide) rfl rfl rfl (by decide) rfl rfl
      rfl rfl⟩

/-- C5: delivering the same valid push-to-default-branch payload twice,
starting from an absent repository directory, performs exactly one clone:
the first delivery clones and answers with action cloned; the second,
finding the .git entry the clone left, runs the branch query and, the
pushed branch matching the current branch, a pull and never a second
clone. -/
theorem handleWebhook_double_delivery
    (hmac : Bytes → Bytes → Bytes) (parseJson : Bytes → Option Payload)
    (cfg : Config) (git1 git2 : GitEnv) (reposDir : String) (body : Bytes)
    (signature event : Option String) (p : Payload) (n b : String)
    (r1 rb rp : ExecResult) (R1 R2 : HandlerResult)
    (hSig : validateGitHubSignature hmac cfg.githubWebhookSecret body signature = true)
    (hParse : parseJson body = some p)
    (hName : (extractRepositoryInfo cfg p).name = some n)
    (hn : n ≠ "")
    (hEv : event = some "push")
    (hBr : extractBranchFromRef p.ref = some b)
    (hb : b = (extractRepositoryInfo cfg p).defaultBranch)
    (hAuto : cfg.autoClone = true)
    (hUrl : truthy (extractRepositoryInfo cfg p).sshUrl = true)
    (hClone : git1.clone = Except.ok r1)
    (hGitEntry : git1.entriesAfterClone.contains ".git" = true)
    (hQ : git2.branch = Except.ok rb)
    (hCur : jsTrim rb.stdout = b)
    (hPull : git2.pull = Except.ok rp)
    (hR1 : R1 = handleWebhookRequest hmac parseJson cfg git1 reposDir none body signature event)
    (hR2 : R2 = handleWebhookRequest hmac parseJson cfg git2 reposDir R1.fs body signature event) :
    R1.response = ⟨200, RespBody.ok (buildSuccessResponse n "cloned" r1.stdout
        (some (extractRepositoryInfo cfg p).defaultBranch))⟩ ∧
      R1.fs = some git1.entriesAfterClone ∧
      R1.trace.count Effect.execClone = 1 ∧
      Effect.execBranch ∈ R2.trace ∧ Effect.execPull ∈ R2.trace ∧
      R2.trace.count Effect.execClone = 0 ∧
      R2.response = ⟨200, RespBody.ok (buildSuccessResponse n "pulled" rp.stdout none)⟩ := by
  subst hEv
  have hR1eq : R1 = ⟨⟨200, RespBody.ok (buildSuccessResponse n "cloned" r1.stdout
        (some (extractRepositoryInfo cfg p).defaultBranch))⟩,
      some git1.entriesAfterClone,
      [Effect.fsExistsRepo, Effect.fsExistsGit, Effect.fsExistsRepo, Effect.fsMkdir,
        Effect.execClone]⟩ := by
    subst hR1
    simp [handleWebhookRequest, hSig, hParse, hName, hn, hBr, hb, determineRepositoryAction,
      dirExists, hasGitEntry, validateClonePrerequisites, hAuto, hUrl,
      prepareRepositoryDirectory, handleRepositoryClone, hClone]
  have hm : ".git" ∈ git1.entriesAfterClone := by simpa using hGitEntry
  have hNeeds2 : (determineRepositoryAction (some git1.entriesAfterClone)).needsClone = false := by
    simp [determineRepositoryAction, dirExists, hasGitEntry, hm]
  have hR2eq : R2 = ⟨⟨200, RespBody.ok (buildSuccessResponse n "pulled" rp.stdout none)⟩,
      some git2.entriesAfterPull,
      [Effect.fsExistsRepo, Effect.fsExistsGit, Effect.execBranch, Effect.execPull]⟩ := by
    rw [hR1eq] at hR2
    subst hR2
    simp [handleWebhookRequest, hSig, hParse, hName, hn, hBr, hNeeds2, hQ, hCur,
      handleRepositoryPull, hPull]
  rw [hR1eq, hR2eq]
  refine ⟨rfl, rfl, by simp, by simp, by simp, by simp, rfl⟩

/-- C5 witness: the worked example delivered twice from an absent
directory clones once and then pulls. -/
theorem handleWebhook_double_delivery_witness :
    validateGitHubSignature hmac0 cfg0.githubWebhookSecret [] sig0 = true ∧
      gitOk.clone = Except.ok ⟨"done", ""⟩ ∧
      gitOk.entriesAfterClone.contains ".git" = true ∧
      gitOk.branch = Except.ok ⟨"main\n", ""⟩ ∧
      jsTrim "main\n" = "main" ∧
      gitOk.pull = Except.ok ⟨"Already up to date.", ""⟩ ∧
      ((handleWebhookRequest hmac0 parse0 cfg0 gitOk "repos" none [] sig0 (some "push")).response =
        ⟨200, RespBody.ok (buildSuccessResponse "app" "cloned" "done"
          (some (extractRepositoryInfo cfg0 payload0).defaultBranch))⟩ ∧
      (handleWebhookRequest hmac0 parse0 cfg0 gitOk "repos" none [] sig0 (some "push")).fs =
        some gitOk.entriesAfterClone ∧
      (handleWebhookRequest hmac0 parse0 cfg0 gitOk "repos" none [] sig0
        (some "push")).trace.count Effect.execClone = 1 ∧
      Effect.execBranch ∈ (handleWebhookRequest hmac0 parse0 cfg0 gitOk "repos"
        (handleWebhookRequest hmac0 parse0 cfg0 gitOk "repos" none [] sig0 (some "push")).fs
        [] sig0 (some "push")).trace ∧
      Effect.execPull ∈ (handleWebhookRequest hmac0 parse0 cfg0 gitOk "repos"
        (handleWebhookRequest hmac0 parse0 cfg0 gitOk "repos" none [] sig0 (some "push")).fs
        [] sig0 (some "push")).trace ∧
      (handleWebhookRequest hmac0 parse0 cfg0 gitOk "repos"
        (handleWebhookRequest hmac0 parse0 cfg0 gitOk "repos" none [] sig0 (some "push")).fs
        [] sig0 (some "push")).trace.count Effect.execClone = 0 ∧
      (handleWebhookRequest hmac0 parse0 cfg0 gitOk "repos"
        (handleWebhookRequest hmac0 parse0 cfg0 gitOk "repos" none [] sig0 (some "push")).fs
        [] sig0 (some "push")).response =
        ⟨200, RespBody.ok (buildSuccessResponse "app" "pulled" "Already up to date." none)⟩) :=
  ⟨by decide, rfl, by decide, rfl, by decide, rfl,
    handleWebhook_double_delivery hmac0 parse0 cfg0 gitOk gitOk "repos" [] sig0
      (some "push") payload0 "app" "main" ⟨"done", ""⟩ ⟨"main\n", ""⟩
      ⟨"Already up to date.", ""⟩ _ _
      (by decide) rfl rfl (by decide) rfl (by decide) rfl rfl rfl rfl (by decide) rfl
      (by decide) rfl rfl rfl⟩
